import Mathlib

/-!
Shallow embedding of the Nutrition Tracker application (`src/main.py`).

Python floats are modelled as exact rationals (ℚ); calendar dates are
modelled as integers (day numbers, so that `pd.to_datetime` order and
day arithmetic are preserved); the Snowflake tables are modelled as
in-memory association lists.
-/

namespace NutritionTracker

/-! ### TDEE & goal calculation (`main.py` lines 317–337) -/

/-- `ACTIVITY_MULTIPLIERS` dict (main.py lines 317–321), as an association
list from activity-level string to multiplier. -/
def ACTIVITY_MULTIPLIERS : List (String × ℚ) :=
  [("Sedentary (office job)", 1.2),
   ("Lightly Active (1-3 days/week exercise)", 1.375),
   ("Moderately Active (3-5 days/week exercise)", 1.55),
   ("Very Active (6-7 days/week exercise)", 1.725),
   ("Extra Active (hard labor, athlete)", 1.9)]

/-- `ACTIVITY_MULTIPLIERS.get(activity_level, 1.2)` (main.py line 326). -/
def activityMultiplier (activity_level : String) : ℚ :=
  (ACTIVITY_MULTIPLIERS.lookup activity_level).getD 1.2

/-- `calculate_tdee` (main.py lines 323–326).  Python's `int` age embeds
into ℚ together with the float weight and height. -/
def calculate_tdee (weight_kg height_cm age : ℚ) (gender activity_level : String) : ℚ :=
  let bmr : ℚ :=
    if gender = "Male" then
      88.362 + (13.397 * weight_kg) + (4.799 * height_cm) - (5.677 * age)
    else
      447.593 + (9.247 * weight_kg) + (3.098 * height_cm) - (4.330 * age)
  bmr * activityMultiplier activity_level

/-- The dict returned by `calculate_targets`. -/
structure Targets where
  calories : ℚ
  protein : ℚ
  carbs : ℚ
  fat : ℚ
  deriving Repr, DecidableEq

/-- `calculate_targets` (main.py lines 328–337). -/
def calculate_targets (base_calories : ℚ) (goal : String) (weekly_change_kg : ℚ) : Targets :=
  let calorie_change_per_day : ℚ := (weekly_change_kg * 7700) / 7
  let target_calories : ℚ := base_calories
  let target_calories : ℚ :=
    if goal = "Weight Loss" then target_calories - calorie_change_per_day
    else if goal = "Muscle Gain" then target_calories + calorie_change_per_day
    else target_calories
  let target_calories : ℚ := max 1200 target_calories
  { calories := target_calories
    protein := (target_calories * 0.30) / 4
    carbs := (target_calories * 0.40) / 4
    fat := (target_calories * 0.30) / 9 }

/-- Spec-side multiplier table for claim C2: the five fixed tiers with
values 1.20, 1.375, 1.55, 1.725, 1.90 and fallback 1.20 for any unknown
activity-level string.  (Written from the claim's words, to be compared
with `activityMultiplier` from the source.) -/
def specMultiplier (activity_level : String) : ℚ :=
  if activity_level = "Sedentary (office job)" then 1.20
  else if activity_level = "Lightly Active (1-3 days/week exercise)" then 1.375
  else if activity_level = "Moderately Active (3-5 days/week exercise)" then 1.55
  else if activity_level = "Very Active (6-7 days/week exercise)" then 1.725
  else if activity_level = "Extra Active (hard labor, athlete)" then 1.90
  else 1.20

/-- Spec-side BMR for claim C2, written from the claim's words. -/
def specBMR (weight height age : ℚ) (gender : String) : ℚ :=
  if gender = "Male" then 88.362 + 13.397 * weight + 4.799 * height - 5.677 * age
  else 447.593 + 9.247 * weight + 3.098 * height - 4.330 * age

/-! ### Log entries and aggregation (`main.py` lines 350–365, 413–418, 464–480)

A row of the `NUTRITION_LOG` table.  Calendar dates are day numbers (ℤ):
`pd.to_datetime` maps the stored `"YYYY-MM-DD"` strings order- and
difference-faithfully onto days, and `timedelta(days=6)` is subtraction
by 6. -/

/-- One log entry, with the fields written by the add-food form
(`main.py` line 417) plus the auto-assigned row id. -/
structure LogEntry where
  date : ℤ
  meal : String
  food : String
  quantity : ℚ
  calories : ℚ
  protein : ℚ
  carbs : ℚ
  fat : ℚ
  deriving Repr, DecidableEq

/-- The four summed nutrient columns of
`df_today[[calorie_col, protein_col, carbs_col, fat_col]].sum()`. -/
structure NutrientTotals where
  calories : ℚ
  protein : ℚ
  carbs : ℚ
  fat : ℚ
  deriving Repr, DecidableEq

/-- `df_today = log_df[log_df[date_col] == today_str]` (main.py line 352). -/
def df_today (log_df : List LogEntry) (today : ℤ) : List LogEntry :=
  log_df.filter (fun e => e.date = today)

/-- `totals = df_today[[calorie_col, protein_col, carbs_col, fat_col]].sum()`
(main.py line 365): componentwise column sums of the entries of the day. -/
def dailyTotals (log_df : List LogEntry) (today : ℤ) : NutrientTotals :=
  { calories := ((df_today log_df today).map LogEntry.calories).sum
    protein := ((df_today log_df today).map LogEntry.protein).sum
    carbs := ((df_today log_df today).map LogEntry.carbs).sum
    fat := ((df_today log_df today).map LogEntry.fat).sum }

/-- Sum of the calories of all entries of one calendar day (the value one
grouped-by-date cell of `week_df.groupby(...)[calorie_col].sum()` holds
after `reindex(..., fill_value=0)`). -/
def caloriesOn (log : List LogEntry) (d : ℤ) : ℚ :=
  ((log.filter (fun e => e.date = d)).map LogEntry.calories).sum

/-- The "Weekly Calorie Trend" computation (main.py lines 466–478):
with a nonempty log, keep the entries of the last 7 calendar days
(`week_df`), and only when `len(week_df) > 1` build the area-chart series:
group `week_df` by date, sum calories, and reindex over the dense range
`today − 6 … today` with `fill_value=0`.  Otherwise no series is produced
(an info message is shown instead). -/
def weeklyTrend (log_df : List LogEntry) (today : ℤ) : Option (List (ℤ × ℚ)) :=
  if log_df.isEmpty then none
  else
    let week_start : ℤ := today - 6
    let week_df := log_df.filter (fun e => week_start ≤ e.date)
    if 1 < week_df.length then
      some ((List.range 7).map (fun (i : ℕ) =>
        (week_start + (i : ℤ),
         ((week_df.filter (fun e => e.date = week_start + (i : ℤ))).map LogEntry.calories).sum)))
    else none

/-! ### Profile persistence (`main.py` lines 29–76)

The `USER_PROFILE` table is modelled as rows of `(key, value)`; the JSON
string stored in the `VALUE` column is modelled by the `Profile` it encodes,
since `json.dumps`/`json.loads` round-trip these flat dicts losslessly. -/

/-- The profile dict assembled by the save button (main.py line 387). -/
structure Profile where
  weight : ℚ
  height : ℚ
  age : ℚ
  gender : String
  activity_level : String
  goal : String
  weekly_change : ℚ
  deriving Repr, DecidableEq

/-- `load_user_profile` (main.py lines 29–42): query the row with
`"key" = 'main_profile'` and decode its VALUE; an empty result is the empty
profile dict, modelled as `none`. -/
def load_user_profile (user_profile_table : List (String × Profile)) : Option Profile :=
  user_profile_table.lookup "main_profile"

/-- `save_user_profile` (main.py lines 44–76): builds the one-row source
dataframe and normalizes the target column names, but the merge statement
that would upsert the row (lines 62–71) is commented out; apart from
clearing the Streamlit cache the function does nothing, so the
`USER_PROFILE` table is left unchanged. -/
def save_user_profile (profile_data : Profile)
    (user_profile_table : List (String × Profile)) : List (String × Profile) :=
  user_profile_table

/-! ### Food reference table (`main.py` lines 107–314) -/

/-- One row of `FOOD_DB` after `format_food_database` renamed the columns:
`Category`, `serving_size_g`, `cal`, `protein`, `carbs`, `fat`, keyed
externally by the food name.  All serving sizes in the source are whole
grams, so `serving_size_g` is ℕ (pandas infers an integer column, which is
what the display label renders). -/
structure FoodItem where
  category : String
  serving_size_g : ℕ
  cal : ℚ
  protein : ℚ
  carbs : ℚ
  fat : ℚ
  deriving Repr, DecidableEq

/-- The "Grains & Breads" block of `indian_food_data`. -/
def foodRows_grains : List (String × FoodItem) := [
  ("Roti (Chapati)", ⟨"Grains", 40, 120, 3, 24, 1⟩),
  ("Phulka", ⟨"Grains", 25, 70, 2, 15, 0.5⟩),
  ("Tandoori Roti", ⟨"Grains", 50, 150, 4, 30, 2⟩),
  ("Naan (Plain)", ⟨"Grains", 70, 220, 6, 38, 4⟩),
  ("Butter Naan", ⟨"Grains", 75, 260, 7, 40, 8⟩),
  ("Paratha (Plain)", ⟨"Grains", 80, 240, 6, 36, 8⟩),
  ("Aloo Paratha", ⟨"Grains", 100, 290, 7.5, 45, 9⟩),
  ("Gobi Paratha", ⟨"Grains", 100, 280, 7, 44, 9⟩),
  ("Thepla", ⟨"Grains", 60, 180, 4, 28, 5⟩),
  ("Puri", ⟨"Grains", 30, 100, 2, 12, 4.5⟩),
  ("Bhatura", ⟨"Grains", 75, 210, 5.5, 32, 7⟩),
  ("Bajra Roti", ⟨"Grains", 45, 120, 3.5, 22, 1.5⟩),
  ("Jowar Roti", ⟨"Grains", 45, 110, 3, 22, 1.2⟩),
  ("Makki di Roti", ⟨"Grains", 60, 200, 4.5, 35, 3⟩),
  ("White Bread (1 slice)", ⟨"Grains", 25, 70, 2.3, 13, 1⟩),
  ("Brown Bread (1 slice)", ⟨"Grains", 28, 75, 2.6, 13, 1⟩),
  ("Appam", ⟨"Grains", 70, 120, 3, 25, 2⟩),
  ("Puran Poli", ⟨"Grains", 80, 250, 6, 45, 8⟩),
  ("Rumali Roti", ⟨"Grains", 40, 100, 3, 20, 1.5⟩),
  ("Missi Roti", ⟨"Grains", 60, 140, 4, 26, 2⟩)]

/-- The "Lentils & Pulses" block of `indian_food_data`. -/
def foodRows_lentils : List (String × FoodItem) := [
  ("Moong Dal (Cooked)", ⟨"Lentils & Pulses", 100, 105, 7, 19, 0.8⟩),
  ("Toor Dal (Cooked)", ⟨"Lentils & Pulses", 100, 120, 6.5, 20, 1.2⟩),
  ("Chana Dal (Cooked)", ⟨"Lentils & Pulses", 100, 130, 7, 22, 1.5⟩),
  ("Masoor Dal (Cooked)", ⟨"Lentils & Pulses", 100, 115, 8, 18, 0.9⟩),
  ("Urad Dal (Cooked)", ⟨"Lentils & Pulses", 100, 127, 7.5, 20, 1.1⟩),
  ("Rajma (Cooked)", ⟨"Lentils & Pulses", 100, 140, 9, 24, 1.2⟩),
  ("Chole (Cooked)", ⟨"Lentils & Pulses", 100, 160, 8, 27, 2.5⟩),
  ("Kala Chana (Cooked)", ⟨"Lentils & Pulses", 100, 150, 8.5, 26, 2⟩),
  ("Green Moong (Cooked)", ⟨"Lentils & Pulses", 100, 118, 8, 19, 1⟩),
  ("Soybean (Cooked)", ⟨"Lentils & Pulses", 100, 170, 12, 15, 7⟩),
  ("Sprouted Moong Salad", ⟨"Lentils & Pulses", 80, 90, 6, 16, 0.5⟩),
  ("Sambar", ⟨"Lentils & Pulses", 150, 180, 8, 28, 4⟩),
  ("Dal Tadka", ⟨"Lentils & Pulses", 150, 200, 9, 25, 7⟩),
  ("Dal Makhani", ⟨"Lentils & Pulses", 150, 280, 12, 32, 12⟩),
  ("Pesarattu", ⟨"Lentils & Pulses", 120, 180, 9, 28, 6⟩),
  ("Khichdi", ⟨"Lentils & Pulses", 200, 210, 7, 32, 3⟩),
  ("Adai", ⟨"Lentils & Pulses", 120, 200, 10, 30, 7⟩),
  ("Panchmel Dal", ⟨"Lentils & Pulses", 150, 190, 9.5, 27, 6⟩),
  ("Roasted Bengal Gram", ⟨"Lentils & Pulses", 100, 360, 18, 60, 5⟩),
  ("Horse Gram (Cooked)", ⟨"Lentils & Pulses", 100, 140, 11, 25, 1.2⟩)]

/-- The "Vegetables & Curries" block of `indian_food_data`. -/
def foodRows_vegetables : List (String × FoodItem) := [
  ("Aloo Sabzi", ⟨"Vegetables & Curries", 100, 120, 2, 18, 5⟩),
  ("Aloo Matar", ⟨"Vegetables & Curries", 150, 160, 4, 22, 8⟩),
  ("Aloo Gobi", ⟨"Vegetables & Curries", 150, 150, 4, 20, 7⟩),
  ("Bhindi Masala", ⟨"Vegetables & Curries", 100, 110, 3, 12, 6⟩),
  ("Baingan Bharta", ⟨"Vegetables & Curries", 150, 140, 4, 18, 8⟩),
  ("Mixed Vegetable Curry", ⟨"Vegetables & Curries", 150, 170, 5, 20, 9⟩),
  ("Cabbage Sabzi", ⟨"Vegetables & Curries", 100, 90, 2, 10, 4⟩),
  ("Lauki Curry", ⟨"Vegetables & Curries", 150, 95, 3, 14, 4⟩),
  ("Tinda Sabzi", ⟨"Vegetables & Curries", 100, 85, 2, 10, 3⟩),
  ("Karela Fry", ⟨"Vegetables & Curries", 100, 100, 2, 12, 6⟩),
  ("Palak Paneer", ⟨"Vegetables & Curries", 150, 220, 10, 12, 15⟩),
  ("Matar Paneer", ⟨"Vegetables & Curries", 150, 240, 12, 14, 16⟩),
  ("Paneer Butter Masala", ⟨"Vegetables & Curries", 180, 320, 10, 18, 25⟩),
  ("Shahi Paneer", ⟨"Vegetables & Curries", 180, 340, 12, 16, 27⟩),
  ("Chole Masala", ⟨"Vegetables & Curries", 150, 250, 9, 20, 12⟩),
  ("Rajma Curry", ⟨"Vegetables & Curries", 150, 260, 10, 22, 11⟩),
  ("Kadhi Pakora", ⟨"Vegetables & Curries", 180, 200, 7, 15, 10⟩),
  ("Dum Aloo", ⟨"Vegetables & Curries", 150, 180, 5, 20, 12⟩),
  ("Vegetable Kofta Curry", ⟨"Vegetables & Curries", 180, 300, 8, 22, 20⟩),
  ("Soya Chunk Curry", ⟨"Vegetables & Curries", 150, 210, 12, 16, 9⟩)]

/-- The "Rice & Biryani/Pulao" block of `indian_food_data`. -/
def foodRows_rice : List (String × FoodItem) := [
  ("Plain Rice", ⟨"Rice & Biryani", 150, 180, 4, 38, 1⟩),
  ("Jeera Rice", ⟨"Rice & Biryani", 150, 200, 4, 42, 2⟩),
  ("Veg Pulao", ⟨"Rice & Biryani", 180, 240, 6, 45, 4⟩),
  ("Veg Biryani", ⟨"Rice & Biryani", 200, 280, 6, 48, 6⟩),
  ("Hyderabadi Chicken Biryani", ⟨"Rice & Biryani", 250, 400, 12, 55, 12⟩),
  ("Mutton Biryani", ⟨"Rice & Biryani", 250, 480, 15, 60, 15⟩),
  ("Curd Rice", ⟨"Rice & Biryani", 180, 210, 5, 44, 3⟩),
  ("Lemon Rice", ⟨"Rice & Biryani", 180, 230, 5, 46, 5⟩),
  ("Tamarind Rice", ⟨"Rice & Biryani", 180, 250, 6, 48, 6⟩),
  ("Khichdi (Rice + Dal)", ⟨"Rice & Biryani", 200, 200, 6, 40, 4⟩),
  ("Fried Rice (Veg)", ⟨"Rice & Biryani", 200, 300, 8, 50, 8⟩),
  ("Egg Fried Rice", ⟨"Rice & Biryani", 220, 320, 10, 52, 10⟩),
  ("Chicken Fried Rice", ⟨"Rice & Biryani", 220, 350, 12, 54, 12⟩),
  ("Paneer Pulao", ⟨"Rice & Biryani", 200, 260, 8, 48, 6⟩),
  ("Peas Pulao", ⟨"Rice & Biryani", 180, 240, 7, 46, 5⟩)]

/-- The "Breakfast" block of `indian_food_data`. -/
def foodRows_breakfast : List (String × FoodItem) := [
  ("Idli", ⟨"Breakfast", 40, 70, 2, 15, 0.5⟩),
  ("Dosa (Plain)", ⟨"Breakfast", 70, 120, 3, 20, 3⟩),
  ("Masala Dosa", ⟨"Breakfast", 120, 200, 4, 30, 6⟩),
  ("Medu Vada", ⟨"Breakfast", 60, 150, 4, 25, 8⟩),
  ("Upma", ⟨"Breakfast", 150, 180, 5, 28, 5⟩),
  ("Poha", ⟨"Breakfast", 100, 120, 3, 25, 3⟩),
  ("Sabudana Khichdi", ⟨"Breakfast", 150, 190, 4, 35, 5⟩),
  ("Pesarattu Dosa", ⟨"Breakfast", 100, 180, 6, 28, 6⟩),
  ("Uttapam", ⟨"Breakfast", 150, 200, 5, 32, 7⟩),
  ("Pongal", ⟨"Breakfast", 180, 250, 7, 36, 8⟩),
  ("Paratha + Curd", ⟨"Breakfast", 200, 300, 8, 45, 12⟩),
  ("Chole Bhature", ⟨"Breakfast", 250, 400, 10, 55, 20⟩),
  ("Aloo Puri", ⟨"Breakfast", 200, 320, 6, 48, 15⟩),
  ("Pesarattu + Chutney", ⟨"Breakfast", 180, 280, 7, 40, 10⟩),
  ("Puttu + Kadala Curry", ⟨"Breakfast", 220, 400, 9, 50, 18⟩)]

/-- The "Snacks & Street Food" block of `indian_food_data`. -/
def foodRows_snacks : List (String × FoodItem) := [
  ("Samosa", ⟨"Snacks & Street Food", 80, 130, 3, 18, 7⟩),
  ("Kachori", ⟨"Snacks & Street Food", 80, 150, 4, 22, 8⟩),
  ("Pakora (Onion)", ⟨"Snacks & Street Food", 70, 180, 5, 25, 10⟩),
  ("Pakora (Paneer)", ⟨"Snacks & Street Food", 80, 200, 7, 20, 12⟩),
  ("Bread Pakora", ⟨"Snacks & Street Food", 90, 220, 8, 22, 14⟩),
  ("Pav Bhaji", ⟨"Snacks & Street Food", 200, 350, 9, 45, 18⟩),
  ("Vada Pav", ⟨"Snacks & Street Food", 150, 300, 8, 40, 15⟩),
  ("Dabeli", ⟨"Snacks & Street Food", 150, 280, 7, 42, 16⟩),
  ("Sev Puri", ⟨"Snacks & Street Food", 120, 180, 4, 30, 10⟩),
  ("Bhel Puri", ⟨"Snacks & Street Food", 120, 160, 4, 28, 8⟩),
  ("Pani Puri", ⟨"Snacks & Street Food", 120, 150, 3, 26, 6⟩),
  ("Aloo Tikki", ⟨"Snacks & Street Food", 100, 180, 5, 32, 9⟩),
  ("Chaat Papdi", ⟨"Snacks & Street Food", 120, 200, 5, 34, 10⟩),
  ("Kathi Roll (Veg)", ⟨"Snacks & Street Food", 180, 280, 7, 36, 14⟩),
  ("Egg Roll", ⟨"Snacks & Street Food", 180, 300, 9, 38, 15⟩),
  ("Chicken Roll", ⟨"Snacks & Street Food", 200, 350, 12, 40, 18⟩),
  ("Spring Roll", ⟨"Snacks & Street Food", 150, 250, 6, 35, 12⟩),
  ("Manchurian (Veg)", ⟨"Snacks & Street Food", 150, 280, 7, 36, 14⟩),
  ("Cutlet (Veg)", ⟨"Snacks & Street Food", 100, 180, 4, 28, 8⟩),
  ("Paneer Tikka", ⟨"Snacks & Street Food", 120, 250, 10, 30, 16⟩)]

/-- The "Sweets & Desserts" block of `indian_food_data`. -/
def foodRows_sweets : List (String × FoodItem) := [
  ("Gulab Jamun", ⟨"Sweets & Desserts", 50, 150, 3, 25, 5⟩),
  ("Rasgulla", ⟨"Sweets & Desserts", 50, 120, 2, 28, 3⟩),
  ("Sandesh", ⟨"Sweets & Desserts", 50, 140, 3, 30, 4⟩),
  ("Kheer", ⟨"Sweets & Desserts", 150, 210, 6, 35, 6⟩),
  ("Gajar Halwa", ⟨"Sweets & Desserts", 100, 250, 5, 40, 10⟩),
  ("Moong Dal Halwa", ⟨"Sweets & Desserts", 100, 280, 6, 42, 12⟩),
  ("Ladoo (Besan)", ⟨"Sweets & Desserts", 40, 160, 3, 28, 8⟩),
  ("Ladoo (Motichoor)", ⟨"Sweets & Desserts", 40, 170, 3, 30, 9⟩),
  ("Jalebi", ⟨"Sweets & Desserts", 60, 220, 2, 38, 12⟩),
  ("Rava Kesari", ⟨"Sweets & Desserts", 80, 200, 4, 36, 8⟩),
  ("Mysore Pak", ⟨"Sweets & Desserts", 60, 250, 6, 35, 10⟩),
  ("Barfi (Kaju)", ⟨"Sweets & Desserts", 50, 200, 5, 32, 12⟩),
  ("Peda", ⟨"Sweets & Desserts", 40, 160, 4, 28, 6⟩),
  ("Rasgulla (Chhena)", ⟨"Sweets & Desserts", 60, 170, 3, 30, 8⟩),
  ("Payasam", ⟨"Sweets & Desserts", 150, 220, 6, 40, 7⟩)]

/-- The "Fruits" block of `indian_food_data`. -/
def foodRows_fruits : List (String × FoodItem) := [
  ("Banana", ⟨"Fruits", 100, 90, 1, 23, 0.3⟩),
  ("Apple", ⟨"Fruits", 150, 80, 0.5, 22, 0.2⟩),
  ("Mango", ⟨"Fruits", 200, 150, 1.5, 35, 0.4⟩),
  ("Papaya", ⟨"Fruits", 150, 60, 0.6, 15, 0.2⟩),
  ("Guava", ⟨"Fruits", 150, 68, 1, 14, 0.4⟩),
  ("Pineapple", ⟨"Fruits", 150, 50, 0.5, 13, 0.3⟩),
  ("Watermelon", ⟨"Fruits", 200, 40, 0.8, 10, 0.2⟩),
  ("Muskmelon", ⟨"Fruits", 200, 45, 0.9, 11, 0.2⟩),
  ("Orange", ⟨"Fruits", 150, 60, 1.2, 15, 0.1⟩),
  ("Pomegranate", ⟨"Fruits", 150, 80, 1.5, 18, 0.3⟩),
  ("Grapes", ⟨"Fruits", 150, 70, 0.7, 17, 0.2⟩),
  ("Chikoo", ⟨"Fruits", 150, 90, 0.9, 20, 0.3⟩),
  ("Lychee", ⟨"Fruits", 100, 60, 0.8, 16, 0.2⟩),
  ("Pear", ⟨"Fruits", 150, 85, 1, 22, 0.2⟩),
  ("Strawberry", ⟨"Fruits", 100, 35, 0.7, 8, 0.1⟩)]

/-- The "Nuts & Dry Fruits" block of `indian_food_data`. -/
def foodRows_nuts : List (String × FoodItem) := [
  ("Almonds", ⟨"Nuts & Dry Fruits", 28, 170, 6, 6, 15⟩),
  ("Cashews", ⟨"Nuts & Dry Fruits", 28, 160, 5, 9, 14⟩),
  ("Pistachios", ⟨"Nuts & Dry Fruits", 28, 170, 6, 8, 14⟩),
  ("Walnuts", ⟨"Nuts & Dry Fruits", 28, 180, 7, 7, 16⟩),
  ("Peanuts", ⟨"Nuts & Dry Fruits", 28, 160, 7, 6, 14⟩),
  ("Raisins", ⟨"Nuts & Dry Fruits", 30, 100, 1, 22, 0.5⟩),
  ("Dates", ⟨"Nuts & Dry Fruits", 30, 120, 1, 30, 0.5⟩),
  ("Figs", ⟨"Nuts & Dry Fruits", 30, 110, 1, 27, 0.5⟩),
  ("Dry Coconut", ⟨"Nuts & Dry Fruits", 30, 200, 2, 12, 18⟩),
  ("Fox Nuts (Makhana)", ⟨"Nuts & Dry Fruits", 30, 95, 3, 18, 1⟩)]

/-- The "Dairy & Drinks" block of `indian_food_data`. -/
def foodRows_dairy : List (String × FoodItem) := [
  ("Milk (Cow)", ⟨"Dairy & Drinks", 200, 120, 6, 12, 5⟩),
  ("Milk (Buffalo)", ⟨"Dairy & Drinks", 200, 150, 8, 11, 8⟩),
  ("Curd", ⟨"Dairy & Drinks", 100, 60, 4, 5, 3⟩),
  ("Paneer", ⟨"Dairy & Drinks", 100, 260, 18, 6, 20⟩),
  ("Cheese", ⟨"Dairy & Drinks", 30, 120, 7, 1, 9⟩),
  ("Butter", ⟨"Dairy & Drinks", 10, 72, 0.1, 0, 8⟩),
  ("Ghee", ⟨"Dairy & Drinks", 10, 90, 0, 0, 10⟩),
  ("Lassi (Sweet)", ⟨"Dairy & Drinks", 200, 150, 6, 20, 5⟩),
  ("Chaas (Buttermilk)", ⟨"Dairy & Drinks", 200, 40, 2, 4, 1⟩),
  ("Milkshake (Banana)", ⟨"Dairy & Drinks", 250, 220, 8, 28, 5⟩),
  ("Tea (with Milk)", ⟨"Dairy & Drinks", 150, 60, 1, 14, 2⟩),
  ("Coffee (with Milk)", ⟨"Dairy & Drinks", 150, 80, 1, 12, 2⟩),
  ("Badam Milk", ⟨"Dairy & Drinks", 200, 180, 5, 22, 7⟩),
  ("Masala Chai", ⟨"Dairy & Drinks", 150, 50, 1, 12, 2⟩),
  ("Hot Chocolate", ⟨"Dairy & Drinks", 200, 210, 6, 25, 8⟩)]

/-- The "Non-Veg" block of `indian_food_data`. -/
def foodRows_nonveg : List (String × FoodItem) := [
  ("Egg (Boiled)", ⟨"Non-Veg", 50, 70, 6, 1, 5⟩),
  ("Omelette", ⟨"Non-Veg", 60, 90, 7, 1, 7⟩),
  ("Chicken Curry", ⟨"Non-Veg", 150, 250, 20, 6, 15⟩),
  ("Butter Chicken", ⟨"Non-Veg", 180, 320, 22, 8, 20⟩),
  ("Chicken Tikka", ⟨"Non-Veg", 120, 200, 18, 5, 12⟩),
  ("Tandoori Chicken", ⟨"Non-Veg", 150, 220, 20, 4, 14⟩),
  ("Mutton Curry", ⟨"Non-Veg", 180, 350, 25, 3, 22⟩),
  ("Mutton Rogan Josh", ⟨"Non-Veg", 200, 400, 28, 4, 25⟩),
  ("Fish Curry", ⟨"Non-Veg", 150, 220, 22, 0, 12⟩),
  ("Fish Fry", ⟨"Non-Veg", 120, 200, 20, 2, 14⟩),
  ("Prawn Curry", ⟨"Non-Veg", 150, 240, 24, 0, 15⟩),
  ("Prawn Fry", ⟨"Non-Veg", 120, 220, 23, 1, 14⟩),
  ("Egg Curry", ⟨"Non-Veg", 150, 210, 20, 2, 12⟩),
  ("Keema Mutton", ⟨"Non-Veg", 150, 300, 26, 1, 20⟩),
  ("Chicken 65", ⟨"Non-Veg", 150, 280, 24, 3, 18⟩)]

/-- `FOOD_DB = format_food_database(indian_food_data)` (main.py lines 107–314):
the name-keyed per-serving nutrition rows in source order, the columns zipped
positionally exactly as `pd.DataFrame` does, assembled from the source's
per-category blocks. -/
def FOOD_DB : List (String × FoodItem) :=
  foodRows_grains ++ foodRows_lentils ++ foodRows_vegetables ++ foodRows_rice ++ foodRows_breakfast ++ foodRows_snacks ++ foodRows_sweets ++ foodRows_fruits ++ foodRows_nuts ++ foodRows_dairy ++ foodRows_nonveg
/-- The entry dict built on form submit (main.py line 417): every
calorie/macro field is the selected FoodItem's per-serving value times the
chosen quantity, snapshotted at entry-creation time. -/
def addFoodEntry (today : ℤ) (meal_type search_food : String) (quantity : ℚ)
    (info : FoodItem) : LogEntry :=
  { date := today
    meal := meal_type
    food := search_food
    quantity := quantity
    calories := info.cal * quantity
    protein := info.protein * quantity
    carbs := info.carbs * quantity
    fat := info.fat * quantity }

/-! ### Display labels and their parsing (`main.py` lines 407–409) -/

/-- `f"{name} ({info['serving_size_g']}g)"` (main.py line 407): the display
label of a food option embeds the serving size after the name; the integer
serving size renders in decimal (`Nat.toDigits 10`). -/
def displayLabel (name : String) (serving_size_g : ℕ) : String :=
  name ++ " (" ++ ⟨Nat.toDigits 10 serving_size_g⟩ ++ "g)"

/-- Index, counted from the front, of the last occurrence of `sep` in the
character list — the split point of Python's `str.rsplit(sep, 1)`.  `none`
when `sep` does not occur. -/
def lastOccIdx (sep : List Char) : List Char → Option ℕ
  | [] => if sep.isPrefixOf ([] : List Char) then some 0 else none
  | c :: rest =>
    match lastOccIdx sep rest with
    | some i => some (i + 1)
    | none => if sep.isPrefixOf (c :: rest) then some 0 else none

/-- `s.rsplit(sep, 1)[0]`: everything strictly before the last occurrence of
`sep`, or the whole string when `sep` does not occur. -/
def rsplitHead (sep s : String) : String :=
  match lastOccIdx sep.data s.data with
  | some i => ⟨s.data.take i⟩
  | none => s

/-- `search_food = selected_food_display.rsplit(' (', 1)[0]`
(main.py line 409): recover the food name from a display label by cutting
at the *last* occurrence of `" ("`. -/
def search_food (selected_food_display : String) : String :=
  rsplitHead " (" selected_food_display

end NutritionTracker

namespace NutritionTracker

/-- The source's dict lookup with default agrees with the claim's five-tier
table with fallback, on every activity-level string. -/
theorem activityMultiplier_eq_specMultiplier (act : String) :
    activityMultiplier act = specMultiplier act := by
  unfold activityMultiplier specMultiplier ACTIVITY_MULTIPLIERS
  by_cases h1 : act = "Sedentary (office job)"
  · subst h1; simp [List.lookup] <;> norm_num
  by_cases h2 : act = "Lightly Active (1-3 days/week exercise)"
  · subst h2; simp [List.lookup] <;> norm_num
  by_cases h3 : act = "Moderately Active (3-5 days/week exercise)"
  · subst h3; simp [List.lookup] <;> norm_num
  by_cases h4 : act = "Very Active (6-7 days/week exercise)"
  · subst h4; simp [List.lookup] <;> norm_num
  by_cases h5 : act = "Extra Active (hard labor, athlete)"
  · subst h5; simp [List.lookup] <;> norm_num
  simp only [List.lookup]
  rw [beq_eq_false_iff_ne.mpr h1, beq_eq_false_iff_ne.mpr h2, beq_eq_false_iff_ne.mpr h3,
    beq_eq_false_iff_ne.mpr h4, beq_eq_false_iff_ne.mpr h5,
    if_neg h1, if_neg h2, if_neg h3, if_neg h4, if_neg h5]
  norm_num

/-- **C2.** For every weight, height, age, gender and activity-level string,
`calculate_tdee` returns BMR × multiplier, with the male/female BMR formulas
of the claim, the multiplier taken from the fixed five-tier table, and any
unknown activity-level string falling back to 1.20 without failing. -/
theorem calculate_tdee_eq_bmr_times_multiplier
    (w h a : ℚ) (gender activity : String) :
    calculate_tdee w h a gender activity = specBMR w h a gender * specMultiplier activity := by
  unfold calculate_tdee specBMR
  rw [activityMultiplier_eq_specMultiplier]

/-- **C3.** `calculate_targets` computes `dailyDelta = weeklyChangeKg × 7700 / 7`
and returns `tdee − dailyDelta` calories for goal "Weight Loss",
`tdee + dailyDelta` for "Muscle Gain" and `tdee` for "Maintain", clamped from
below by `max 1200 _` with no upper clamp, so the returned calories are always
`≥ 1200` for every goal and weekly-change value. -/
theorem calculate_targets_calories_cases (tdee w : ℚ) :
    (calculate_targets tdee "Weight Loss" w).calories = max 1200 (tdee - w * 7700 / 7) ∧
    (calculate_targets tdee "Muscle Gain" w).calories = max 1200 (tdee + w * 7700 / 7) ∧
    (calculate_targets tdee "Maintain" w).calories = max 1200 tdee ∧
    ∀ goal : String, 1200 ≤ (calculate_targets tdee goal w).calories := by
  refine ⟨?_, ?_, ?_, ?_⟩
  · simp [calculate_targets]
  · simp [calculate_targets]
  · simp [calculate_targets]
  · intro goal
    simp only [calculate_targets]
    exact le_max_left _ _

/-- **C4.** For every tdee, goal and weekly change, the macros returned by
`calculate_targets` satisfy the energy identity
`protein·4 + carbs·4 + fat·9 = targetCalories` exactly (the split is the fixed
30 % / 40 % / 30 % of calories at 4, 4 and 9 kcal/g regardless of goal). -/
theorem calculate_targets_energy_identity (tdee : ℚ) (goal : String) (w : ℚ) :
    (calculate_targets tdee goal w).protein * 4 + (calculate_targets tdee goal w).carbs * 4 +
      (calculate_targets tdee goal w).fat * 9 = (calculate_targets tdee goal w).calories ∧
    (calculate_targets tdee goal w).protein =
      (calculate_targets tdee goal w).calories * 0.30 / 4 ∧
    (calculate_targets tdee goal w).carbs =
      (calculate_targets tdee goal w).calories * 0.40 / 4 ∧
    (calculate_targets tdee goal w).fat =
      (calculate_targets tdee goal w).calories * 0.30 / 9 := by
  refine ⟨?_, ?_, ?_, ?_⟩ <;> simp only [calculate_targets]
  ring

/-- **C10.** For every goal string other than exactly "Weight Loss" and
"Muscle Gain" (unknown or misspelled goals included), `calculate_targets`
ignores the weekly change entirely and returns the same result as goal
"Maintain", namely `max 1200 tdee` calories with the fixed macro split. -/
theorem calculate_targets_other_goals (tdee w w' : ℚ) (goal : String)
    (h1 : goal ≠ "Weight Loss") (h2 : goal ≠ "Muscle Gain") :
    calculate_targets tdee goal w = calculate_targets tdee "Maintain" w' ∧
    (calculate_targets tdee goal w).calories = max 1200 tdee := by
  simp only [calculate_targets, if_neg h1, if_neg h2]
  simp

/-- Witness for `calculate_targets_other_goals`: the misspelled goal
"maintenance" with weekly change 5 behaves exactly like "Maintain". -/
theorem calculate_targets_other_goals_witness :
    calculate_targets 2000 "maintenance" 5 = calculate_targets 2000 "Maintain" 0 ∧
    (calculate_targets 2000 "maintenance" 5).calories = max 1200 2000 :=
  calculate_targets_other_goals 2000 5 0 "maintenance" (by decide) (by decide)

/-- **C9, counterexample.** As stated the claim quantifies over *every*
weight, height, age and gender.  At weight 0, height 0, age 100, gender
"Male" (inputs `calculate_tdee` accepts), the BMR is negative, so although
the "Sedentary (office job)" multiplier 1.2 is ≤ the
"Extra Active (hard labor, athlete)" multiplier 1.9, the TDEE strictly
*decreases*; monotonicity fails. -/
theorem calculate_tdee_not_monotone_counterexample :
    activityMultiplier "Sedentary (office job)" ≤
        activityMultiplier "Extra Active (hard labor, athlete)" ∧
    calculate_tdee 0 0 100 "Male" "Extra Active (hard labor, athlete)" <
      calculate_tdee 0 0 100 "Male" "Sedentary (office job)" := by
  constructor <;>
    · simp [calculate_tdee, activityMultiplier, ACTIVITY_MULTIPLIERS, List.lookup]
      norm_num

/-- **C9, amended.** On the caller-validated profile ranges of the source
(weight 40–200 kg, height 120–220 cm, age 10–100; `main.py` lines 377–379)
the BMR is nonnegative for both genders, and `calculate_tdee` is
monotonically non-decreasing in the activity-level multiplier. -/
theorem calculate_tdee_monotone_in_multiplier (w h a : ℚ) (gender a1 a2 : String)
    (hw1 : 40 ≤ w) (hw2 : w ≤ 200) (hh1 : 120 ≤ h) (hh2 : h ≤ 220)
    (ha1 : 10 ≤ a) (ha2 : a ≤ 100)
    (hm : activityMultiplier a1 ≤ activityMultiplier a2) :
    calculate_tdee w h a gender a1 ≤ calculate_tdee w h a gender a2 := by
  simp only [calculate_tdee]
  refine mul_le_mul_of_nonneg_left hm ?_
  split <;> nlinarith

/-- Witness for `calculate_tdee_monotone_in_multiplier` at the spec's
end-to-end profile (70 kg, 170 cm, age 25, Male), from Sedentary to
Extra Active. -/
theorem calculate_tdee_monotone_in_multiplier_witness :
    calculate_tdee 70 170 25 "Male" "Sedentary (office job)" ≤
      calculate_tdee 70 170 25 "Male" "Extra Active (hard labor, athlete)" :=
  calculate_tdee_monotone_in_multiplier 70 170 25 "Male" _ _
    (by norm_num) (by norm_num) (by norm_num) (by norm_num) (by norm_num) (by norm_num)
    (by simp [activityMultiplier, ACTIVITY_MULTIPLIERS, List.lookup]; norm_num)

/-- **C6.** `dailyTotals` is the componentwise sum of the calories, protein,
carbs and fat fields over exactly the entries whose date equals the given
date (an entry contributes when and only when its date matches); it is
all-zero on the empty entry list, and it is invariant under any reordering
of the entry sequence. -/
theorem dailyTotals_spec (d : ℤ) :
    dailyTotals [] d = ⟨0, 0, 0, 0⟩ ∧
    (∀ (e : LogEntry) (l : List LogEntry),
      dailyTotals (e :: l) d =
        if e.date = d then
          ⟨e.calories + (dailyTotals l d).calories, e.protein + (dailyTotals l d).protein,
           e.carbs + (dailyTotals l d).carbs, e.fat + (dailyTotals l d).fat⟩
        else dailyTotals l d) ∧
    (∀ l₁ l₂ : List LogEntry, l₁.Perm l₂ → dailyTotals l₁ d = dailyTotals l₂ d) := by
  refine ⟨rfl, ?_, ?_⟩
  · intro e l
    by_cases h : e.date = d
    · simp [dailyTotals, df_today, List.filter_cons, h]
    · simp [dailyTotals, df_today, List.filter_cons, h]
  · intro l₁ l₂ hp
    have hf : (l₁.filter (fun e => e.date = d)).Perm (l₂.filter (fun e => e.date = d)) :=
      hp.filter _
    simp only [dailyTotals, df_today]
    rw [(hf.map LogEntry.calories).sum_eq, (hf.map LogEntry.protein).sum_eq,
      (hf.map LogEntry.carbs).sum_eq, (hf.map LogEntry.fat).sum_eq]

/-- Witness for `dailyTotals_spec`: swapping two concrete entries leaves the
totals unchanged. -/
theorem dailyTotals_spec_witness :
    dailyTotals [⟨0, "Lunch", "Roti (Chapati)", 2, 240, 6, 48, 2⟩,
                 ⟨0, "Dinner", "Plain Rice", 1, 180, 4, 38, 1⟩] 0 =
      dailyTotals [⟨0, "Dinner", "Plain Rice", 1, 180, 4, 38, 1⟩,
                   ⟨0, "Lunch", "Roti (Chapati)", 2, 240, 6, 48, 2⟩] 0 :=
  (dailyTotals_spec 0).2.2 _ _ (List.Perm.swap _ _ _)

/-- Filtering the 7-day window first does not change a single day's
selection, for days inside the window. -/
theorem filter_window_filter_day (log : List LogEntry) (ws d : ℤ) (hd : ws ≤ d) :
    (log.filter (fun e => ws ≤ e.date)).filter (fun e => e.date = d) =
      log.filter (fun e => e.date = d) := by
  induction log with
  | nil => rfl
  | cons e l ih =>
    by_cases he : e.date = d
    · have hw : ws ≤ e.date := he ▸ hd
      simp [List.filter_cons, he, hw, hd, ih]
    · by_cases hw : ws ≤ e.date <;> simp [List.filter_cons, he, hw, ih]

/-- **C7, counterexample.** As stated the claim requires a 7-point series
for *every* entry set, the empty set included; but on an empty log the code
renders an info message and produces no series at all (and likewise when
the 7-day window holds at most one entry). -/
theorem weeklyTrend_empty_counterexample :
    ¬ ∃ s : List (ℤ × ℚ), weeklyTrend [] 10 = some s ∧ s.length = 7 := by
  rintro ⟨s, hs, -⟩
  simp [weeklyTrend] at hs

/-- **C7, amended.** Whenever the weekly-trend series is produced (nonempty
log and more than one entry in the 7-day window), it has exactly 7 points,
its dates are the consecutive calendar days `today − 6 … today` in ascending
order with no gaps, and each date's value is the calorie sum of the log
entries of that date — 0 for dates with no entries. -/
theorem weeklyTrend_some_spec (log : List LogEntry) (today : ℤ) (s : List (ℤ × ℚ))
    (hs : weeklyTrend log today = some s) :
    s.length = 7 ∧
    s = (List.range 7).map
      (fun (i : ℕ) => ((today - 6 + (i : ℤ), caloriesOn log (today - 6 + (i : ℤ))) : ℤ × ℚ)) := by
  simp only [weeklyTrend] at hs
  split at hs
  · exact absurd hs (by simp)
  split at hs
  · have hs' := (Option.some_injective _ hs).symm
    subst hs'
    refine ⟨by simp, ?_⟩
    refine List.map_congr_left (fun i _ => ?_)
    unfold caloriesOn
    rw [filter_window_filter_day]
    omega
  · exact absurd hs (by simp)

/-- Witness for `weeklyTrend_some_spec`: a two-entry log on day 10 yields
the dense series day 4 … day 10, six zeros and one 420-kcal point. -/
theorem weeklyTrend_some_spec_witness :
    ([(4, 0), (5, 0), (6, 0), (7, 0), (8, 0), (9, 0), (10, 420)] : List (ℤ × ℚ)).length = 7 ∧
    ([(4, 0), (5, 0), (6, 0), (7, 0), (8, 0), (9, 0), (10, 420)] : List (ℤ × ℚ)) =
      (List.range 7).map
        (fun (i : ℕ) => ((10 - 6 + (i : ℤ),
          caloriesOn [⟨10, "Lunch", "Roti (Chapati)", 2, 240, 6, 48, 2⟩,
                      ⟨10, "Dinner", "Plain Rice", 1, 180, 4, 38, 1⟩] (10 - 6 + (i : ℤ))) : ℤ × ℚ)) :=
  weeklyTrend_some_spec
    [⟨10, "Lunch", "Roti (Chapati)", 2, 240, 6, 48, 2⟩,
     ⟨10, "Dinner", "Plain Rice", 1, 180, 4, 38, 1⟩] 10 _ (by with_unfolding_all decide)

/-- **C1 (code bug).** With the merge statement commented out,
`save_user_profile` leaves the store unchanged for every profile and store
state; in particular saving any profile into an empty `USER_PROFILE` table
and loading again returns the empty profile, not the saved one — the save
is a silent no-op, contradicting the required persistence behaviour. -/
theorem save_user_profile_does_not_persist (p : Profile)
    (tbl : List (String × Profile)) :
    save_user_profile p tbl = tbl ∧
    load_user_profile (save_user_profile p tbl) = load_user_profile tbl ∧
    load_user_profile (save_user_profile p []) = none ∧
    load_user_profile (save_user_profile p []) ≠ some p :=
  ⟨rfl, rfl, rfl, by simp [load_user_profile, save_user_profile, List.lookup]⟩

/-- **C5.** Every log entry created by the add-food form has its calories,
protein, carbs and fat equal to the selected FoodItem's per-serving values
times the chosen quantity; in particular "Roti (Chapati)" is stored in
`FOOD_DB` with serving 40 g, 120 kcal, 3 g protein, 24 g carbs, 1 g fat,
and logging it with quantity 2 yields calories 240, protein 6, carbs 48,
fat 2. -/
theorem addFoodEntry_snapshot (today : ℤ) (meal food : String) (q : ℚ) (info : FoodItem) :
    ((addFoodEntry today meal food q info).calories = info.cal * q ∧
     (addFoodEntry today meal food q info).protein = info.protein * q ∧
     (addFoodEntry today meal food q info).carbs = info.carbs * q ∧
     (addFoodEntry today meal food q info).fat = info.fat * q) ∧
    FOOD_DB.lookup "Roti (Chapati)" = some ⟨"Grains", 40, 120, 3, 24, 1⟩ ∧
    addFoodEntry today meal "Roti (Chapati)" 2 ⟨"Grains", 40, 120, 3, 24, 1⟩ =
      ⟨today, meal, "Roti (Chapati)", 2, 240, 6, 48, 2⟩ := by
  refine ⟨⟨rfl, rfl, rfl, rfl⟩, ?_, ?_⟩
  · rfl
  · simp only [addFoodEntry, LogEntry.mk.injEq]
    norm_num

/-- `Nat.digitChar` never renders a space. -/
theorem digitChar_ne_space (n : ℕ) : Nat.digitChar n ≠ ' ' := by
  rcases Nat.lt_or_ge n 16 with h | h
  · interval_cases n <;> decide
  · unfold Nat.digitChar
    rw [if_neg (by omega : ¬ n = 0), if_neg (by omega : ¬ n = 1),
      if_neg (by omega : ¬ n = 2), if_neg (by omega : ¬ n = 3),
      if_neg (by omega : ¬ n = 4), if_neg (by omega : ¬ n = 5),
      if_neg (by omega : ¬ n = 6), if_neg (by omega : ¬ n = 7),
      if_neg (by omega : ¬ n = 8), if_neg (by omega : ¬ n = 9),
      if_neg (by omega : ¬ n = 10), if_neg (by omega : ¬ n = 11),
      if_neg (by omega : ¬ n = 12), if_neg (by omega : ¬ n = 13),
      if_neg (by omega : ¬ n = 14), if_neg (by omega : ¬ n = 15)]
    decide

/-- `Nat.toDigitsCore` only prepends digit characters, so no space appears
if none was in the accumulator. -/
theorem toDigitsCore_ne_space (fuel : ℕ) :
    ∀ (n : ℕ) (ds : List Char), (∀ c ∈ ds, c ≠ ' ') →
      ∀ c ∈ Nat.toDigitsCore 10 fuel n ds, c ≠ ' ' := by
  induction fuel with
  | zero => intro n ds hds c hc; exact hds c hc
  | succ fuel ih =>
    intro n ds hds c hc
    simp only [Nat.toDigitsCore] at hc
    split at hc
    · rcases List.mem_cons.mp hc with rfl | hc
      · exact digitChar_ne_space _
      · exact hds c hc
    · refine ih _ _ ?_ c hc
      intro x hx
      rcases List.mem_cons.mp hx with rfl | hx
      · exact digitChar_ne_space _
      · exact hds x hx

/-- No character of the serving-size suffix `Ng)` is a space. -/
theorem labelTail_ne_space (serving : ℕ) :
    ∀ c ∈ Nat.toDigits 10 serving ++ ['g', ')'], c ≠ ' ' := by
  intro c hc
  rcases List.mem_append.mp hc with h | h
  · exact toDigitsCore_ne_space _ _ _ (by simp) c h
  · rcases List.mem_cons.mp h with rfl | h
    · decide
    · rcases List.mem_cons.mp h with rfl | h
      · decide
      · simp at h

/-- A space-free character list contains no occurrence of `" ("`. -/
theorem lastOccIdx_no_space (l : List Char) (hl : ∀ c ∈ l, c ≠ ' ') :
    lastOccIdx [' ', '('] l = none := by
  induction l with
  | nil => rfl
  | cons c rest ih =>
    have hc : (' ' == c) = false :=
      beq_eq_false_iff_ne.mpr (Ne.symm (hl c (List.mem_cons_self c rest)))
    have hrest := ih (fun x hx => hl x (List.mem_cons_of_mem c hx))
    simp [lastOccIdx, hrest, List.isPrefixOf, hc]

/-- The separator at the head of `" (" ++ tail` is the only (hence last)
occurrence when `tail` is space-free. -/
theorem lastOccIdx_sep_start (tail : List Char) (htail : ∀ c ∈ tail, c ≠ ' ') :
    lastOccIdx [' ', '('] (' ' :: '(' :: tail) = some 0 := by
  have h2 : lastOccIdx [' ', '('] ('(' :: tail) = none := by
    apply lastOccIdx_no_space
    intro c hc
    rcases List.mem_cons.mp hc with rfl | hc
    · decide
    · exact htail c hc
  have step : lastOccIdx [' ', '('] (' ' :: '(' :: tail)
      = match lastOccIdx [' ', '('] ('(' :: tail) with
        | some i => some (i + 1)
        | none => if [' ', '('].isPrefixOf (' ' :: '(' :: tail) then some 0 else none := rfl
  rw [step, h2]
  simp [List.isPrefixOf]

/-- Prepending any prefix shifts the last-occurrence index. -/
theorem lastOccIdx_append_right (sep l₁ l₂ : List Char) (j : ℕ)
    (h : lastOccIdx sep l₂ = some j) :
    lastOccIdx sep (l₁ ++ l₂) = some (l₁.length + j) := by
  induction l₁ with
  | nil => simpa using h
  | cons c rest ih =>
    have step : lastOccIdx sep (c :: (rest ++ l₂))
        = match lastOccIdx sep (rest ++ l₂) with
          | some i => some (i + 1)
          | none => if sep.isPrefixOf (c :: (rest ++ l₂)) then some 0 else none := rfl
    rw [List.cons_append, step, ih]
    simp only [Option.some.injEq, List.length_cons]
    omega

/-- Cutting at the last `" ("` of `name ++ " (" ++ tail` returns exactly
`name` whenever `tail` is space-free — even when `name` itself contains
`" ("`. -/
theorem rsplitHead_name_tail (name : String) (tail : List Char)
    (htail : ∀ c ∈ tail, c ≠ ' ') :
    rsplitHead " (" ⟨name.data ++ ' ' :: '(' :: tail⟩ = name := by
  unfold rsplitHead
  have h := lastOccIdx_append_right [' ', '('] name.data (' ' :: '(' :: tail) 0
    (lastOccIdx_sep_start tail htail)
  rw [show (" (" : String).data = [' ', '('] from rfl]
  rw [show (String.mk (name.data ++ ' ' :: '(' :: tail)).data
      = name.data ++ ' ' :: '(' :: tail from rfl]
  rw [Nat.add_zero] at h
  rw [h]
  show (⟨List.take name.data.length (name.data ++ ' ' :: '(' :: tail)⟩ : String) = name
  rw [List.take_left]

/-- **C8, counterexample.** The display label of "Roti (Chapati)" is
"Roti (Chapati) (40g)", and the code's parse (`rsplit(' (', 1)[0]`, i.e.
cutting at the *last* `" ("`) recovers the full name "Roti (Chapati)" —
not the first segment "Roti" — although the name contains `" ("`.  The
round trip succeeds exactly where the claim asserts it fails. -/
theorem search_food_roundtrip_counterexample :
    displayLabel "Roti (Chapati)" 40 = "Roti (Chapati) (40g)" ∧
    "Roti (Chapati)".data = "Roti".data ++ ' ' :: '(' :: "Chapati)".data ∧
    search_food (displayLabel "Roti (Chapati)" 40) = "Roti (Chapati)" ∧
    search_food (displayLabel "Roti (Chapati)" 40) ≠ "Roti" := by
  refine ⟨?_, ?_, ?_, ?_⟩ <;> decide

/-- **C8, amended.** For every food name (those of the reference table in
particular) the display label embeds the serving size, and parsing a label
back is done by splitting at the *last* occurrence of `" ("` (Python
`rsplit(' (', 1)[0]`) — a round trip that recovers the original name for
every name and serving size, including names that themselves contain
`" ("`, because the serving suffix contains no space. -/
theorem search_food_displayLabel_roundTrip (name : String) (serving : ℕ)
    (p : String × FoodItem) (hp : p ∈ FOOD_DB) :
    search_food (displayLabel name serving) = name ∧
    search_food (displayLabel p.1 p.2.serving_size_g) = p.1 := by
  have key : ∀ (nm : String) (sv : ℕ), search_food (displayLabel nm sv) = nm := by
    intro nm sv
    unfold search_food displayLabel
    have hdata : (nm ++ " (" ++ (⟨Nat.toDigits 10 sv⟩ : String) ++ "g)")
        = ⟨nm.data ++ ' ' :: '(' :: (Nat.toDigits 10 sv ++ ['g', ')'])⟩ := by
      apply congrArg String.mk
      show (nm.data ++ [' ', '('] ++ Nat.toDigits 10 sv) ++ ['g', ')'] = _
      simp [List.append_assoc]
    rw [hdata, rsplitHead_name_tail nm _ (labelTail_ne_space sv)]
  exact ⟨key name serving, key p.1 p.2.serving_size_g⟩

/-- Witness for `search_food_displayLabel_roundTrip`: a name outside the
table containing `" ("`, and the table's own "Roti (Chapati)" row. -/
theorem search_food_displayLabel_roundTrip_witness :
    search_food (displayLabel "Paneer (Fresh)" 100) = "Paneer (Fresh)" ∧
    search_food (displayLabel "Roti (Chapati)" 40) = "Roti (Chapati)" :=
  search_food_displayLabel_roundTrip "Paneer (Fresh)" 100
    ("Roti (Chapati)", ⟨"Grains", 40, 120, 3, 24, 1⟩)
    (by unfold FOOD_DB foodRows_grains
        exact List.mem_append_left _ (List.mem_cons_self _ _))

end NutritionTracker
